import Mathlib

/-!
# Verification of the mlops repository's configuration / model-fallback subsystem

This file shallowly embeds the Python code of the `Mrpongalfer/mlops`
repository (files `src/intelligent_config.py`, `main.py`, `main_simple.py`,
`main_intelligent.py`, `src/data_processor.py`, `src/config.py`) into Lean 4
and proves (or refutes) the properties stated in the repository's design
note.

External effects (subprocess invocations, module imports, socket binds,
artifact deserialisation) are modelled as oracle inputs: each embedded
function takes the outcome of its external calls as explicit data, and the
Python control flow around those outcomes is translated faithfully.
Python exceptions are modelled with `Except` / an `Option PyErr` component;
mutation of `self` is explicit state passing, and a raised exception does
NOT roll the state back (it is returned alongside the error, as in Python).
-/

/-- Kinds of Python exceptions relevant to the embedded code.  The
`except (...)` clauses of the source match on exception classes, so the
embedding distinguishes exactly the classes the source mentions, plus
catch-all constructors for any other `Exception`. -/
inductive PyErr where
  | importError
  | calledProcessError
  | fileNotFoundError
  | timeoutExpired
  | permissionError
  | valueError (msg : String)
  | attributeError
  | other (msg : String)
deriving Repr, DecidableEq

/-- Rendering of an exception, modelling Python's `str(e)`. -/
def strOfErr : PyErr → String
  | .importError => "ImportError"
  | .calledProcessError => "CalledProcessError"
  | .fileNotFoundError => "FileNotFoundError"
  | .timeoutExpired => "TimeoutExpired"
  | .permissionError => "PermissionError"
  | .valueError m => m
  | .attributeError => "AttributeError"
  | .other m => m

/-- Outcome of one `subprocess.run([...])` invocation: it completes with
exit status zero, raises `CalledProcessError` (non-zero exit under
`check=True`), raises `FileNotFoundError` (command absent), raises
`TimeoutExpired`, or raises some other `Exception` (e.g. `PermissionError`
when the command file exists but is not executable). -/
inductive CmdOutcome where
  | success
  | calledProcessError
  | fileNotFoundError
  | timeoutExpired
  | otherError (e : PyErr)
deriving Repr, DecidableEq

/-- Outcome of `importlib.import_module(name)`: the import succeeds, raises
`ImportError`, or raises some other `Exception` (a module whose top-level
code fails). -/
inductive ImportOutcome where
  | ok
  | importError
  | otherError (e : PyErr)
deriving Repr, DecidableEq

/-- `IntelligentConfig.check_command_availability` (src/intelligent_config.py
lines 67-76): runs `[command, "--version"]` with `check=True, timeout=5` and
returns `True` on success; the `except` clause catches exactly
`(CalledProcessError, FileNotFoundError, TimeoutExpired)` and returns
`False`; any other exception propagates. -/
def check_command_availability (run : CmdOutcome) : Except PyErr Bool :=
  match run with
  | .success => .ok true
  | .calledProcessError => .ok false
  | .fileNotFoundError => .ok false
  | .timeoutExpired => .ok false
  | .otherError e => .error e

/-- The `self.available_modules` cache of `IntelligentConfig`: a Python dict
from module name to the cached availability boolean. -/
def ModuleCache : Type := String → Option Bool

/-- `IntelligentConfig.check_module_availability` (lines 54-65): consults the
`available_modules` cache first; otherwise attempts the import, caching and
returning `True` on success and `False` on `ImportError`.  An exception other
than `ImportError` propagates, leaving the cache unchanged. -/
def check_module_availability (imp : String → ImportOutcome) (cache : ModuleCache)
    (module_name : String) : Except PyErr (Bool × ModuleCache) :=
  match cache module_name with
  | some b => .ok (b, cache)
  | none =>
    match imp module_name with
    | .ok => .ok (true, Function.update cache module_name (some true))
    | .importError => .ok (false, Function.update cache module_name (some false))
    | .otherError e => .error e

/-- `check_torch_cuda` (lines 19-25): its outcome is an oracle — it returns a
boolean, or (through `torch.cuda.is_available()`) raises. -/
def TorchCudaOutcome : Type := Except PyErr Bool

/-- `IntelligentConfig.detect_gpu_availability` (lines 213-231): runs
`nvidia-smi` catching the three listed exception classes, returning `True`
on success; otherwise calls `check_torch_cuda()` under
`except ImportError: pass`, so a non-`ImportError` exception from the torch
probe propagates; finally returns `False`. -/
def detect_gpu_availability (nvidiaSmi : CmdOutcome) (torchCuda : TorchCudaOutcome) :
    Except PyErr Bool :=
  match nvidiaSmi with
  | .success => .ok true
  | .calledProcessError | .fileNotFoundError | .timeoutExpired =>
    match torchCuda with
    | .ok b => .ok b
    | .error .importError => .ok false
    | .error e => .error e
  | .otherError e => .error e

/-- `IntelligentConfig.get_available_ports` (lines 256-269): iterates ports
`start_port, ..., start_port + num_ports - 1` in ascending order, keeping
those for which the socket bind succeeds (`OSError` means skip), and
returns the collected list, or `[start_port]` when it is empty.
`bindable q = true` models a successful `s.bind(('localhost', q))`. -/
def get_available_ports (bindable : Nat → Bool) (start_port : Nat := 8000)
    (num_ports : Nat := 10) : List Nat :=
  let available_ports := ((List.range num_ports).map (fun i => start_port + i)).filter
    (fun q => bindable q)
  if available_ports.isEmpty then [start_port] else available_ports

/-- The hard-coded preference list of `detect_available_ollama_model`
(line 189): `fallback_models = ["phi3:mini", "llama3.2:3b", "llama3.1:8b",
"mistral:7b"]`. -/
def fallback_models : List String := ["phi3:mini", "llama3.2:3b", "llama3.1:8b", "mistral:7b"]

/-- Oracle for the two Ollama subprocess probes used by
`detect_available_ollama_model` (lines 172-200). `listOutcome = some lines`
models `subprocess.run(["ollama", "list"])` completing with return code 0,
with `lines` the words of each line of `result.stdout.strip().split('\n')`;
`none` models a non-zero return code or a caught exception.  `showOk m`
models `subprocess.run(["ollama", "show", m])` completing with return code
0 (a non-zero code or caught exception gives `false`). -/
structure OllamaProbe where
  listOutcome : Option (List (List String))
  showOk : String → Bool

/-- The preference-list walk in `detect_available_ollama_model` (lines
189-200): return the first entry of `fallback_models` whose `ollama show`
probe succeeds, else the ultimate fallback `"phi3:mini"`. -/
def ollama_fallback_walk (showOk : String → Bool) : String :=
  (fallback_models.find? (fun m => showOk m)).getD "phi3:mini"

/-- `IntelligentConfig.detect_available_ollama_model` (lines 172-200): if the
`ollama list` probe succeeds with more than one line, return the first word
of the second line (`"phi3:mini"` when that line has no words); otherwise
walk the `fallback_models` preference list. -/
def detect_available_ollama_model (pr : OllamaProbe) : String :=
  match pr.listOutcome with
  | some lines =>
    match lines with
    | _header :: secondLine :: _rest =>
      match secondLine with
      | [] => "phi3:mini"
      | w :: _ => w
    | _ => ollama_fallback_walk pr.showOk
  | none => ollama_fallback_walk pr.showOk

/-! ## Data model of the configuration synthesizer -/

/-- The `env_info` dict built by `IntelligentConfig.detect_environment`
(lines 233-254). -/
structure EnvInfo where
  python_version : String
  platform : String
  working_directory : String
  has_gpu : Bool
  available_ports : List Nat
  dev_mode : Bool
  has_git : Bool
  has_docker : Bool
  has_ollama : Bool
  has_dvc : Bool
  has_fastapi : Bool
  has_pandas : Bool
  has_sklearn : Bool
  has_torch : Bool
  has_tensorflow : Bool
deriving Repr, DecidableEq

/-- The `project` section of the dynamic config (lines 83-87). -/
structure ProjectConfig where
  name : String
  version : String
  description : String
deriving Repr, DecidableEq

/-- The `api` section of the dynamic config (lines 88-92). -/
structure ApiConfig where
  host : String
  port : Nat
  reload : Bool
deriving Repr, DecidableEq

/-- The `paths` dict of `get_dynamic_paths` (lines 103-121); directory
creation is a side effect with no influence on the returned value. -/
structure PathsConfig where
  base : String
  data_dir : String
  models_dir : String
  reports_dir : String
  logs_dir : String
  config_file : String
deriving Repr, DecidableEq

/-- The `data` section of `get_data_config` (lines 123-133).  The split
fractions are the literals `0.2` and `0.1`, represented exactly as
rationals (they are constants; no float arithmetic occurs). -/
structure DataConfig where
  raw_data : String
  processed_data : String
  sample_size : Nat
  validation_split : ℚ
  test_split : ℚ
deriving Repr, DecidableEq

/-- The `models` section of `get_model_config` (lines 135-149). -/
structure ModelConfig where
  mtype : String
  algorithm : String
  n_estimators : Nat
  random_state : Nat
  n_jobs : Int
  use_gpu : Bool
  model_path : String
deriving Repr, DecidableEq

/-- The `llm` section of `get_llm_config` (lines 151-170); `temperature` is
the literal `0.7` as an exact rational. -/
structure LlmConfig where
  enabled : Bool
  provider : String
  model : String
  api_base : String
  temperature : ℚ
  max_tokens : Nat
  fallback_message : Option String
deriving Repr, DecidableEq

/-- The `monitoring` section of `get_monitoring_config` (lines 202-211). -/
structure MonitoringConfig where
  metrics_enabled : Bool
  metrics_port : Nat
  logging_level : String
  health_check_interval : Nat
deriving Repr, DecidableEq

/-- The full dict returned by `get_dynamic_config` (lines 78-101). -/
structure RuntimeConfig where
  project : ProjectConfig
  api : ApiConfig
  paths : PathsConfig
  data : DataConfig
  models : ModelConfig
  llm : LlmConfig
  monitoring : MonitoringConfig
  environment : EnvInfo
deriving Repr, DecidableEq

/-- The fixed external world an `IntelligentConfig` instance probes: the
outcome of every external call the configuration synthesizer makes.  A
fixed `Environment` models an unchanged host between successive calls. -/
structure Environment where
  pythonVersion : String
  platform : String
  workingDirectory : String
  environmentVar : Option String
  basePath : String
  nvidiaSmi : CmdOutcome
  torchCuda : TorchCudaOutcome
  portBindable : Nat → Bool
  commandRun : String → CmdOutcome
  importRun : String → ImportOutcome
  ollamaProbe : OllamaProbe

/-- `IntelligentConfig.detect_environment` (lines 233-254): builds the
`env_info` dict (GPU probe, port scan, dev-mode flag), then checks the four
tools `git, docker, ollama, dvc` and the five packages `fastapi, pandas,
sklearn, torch, tensorflow` in order, the latter through the
`available_modules` cache. -/
def detect_environment (env : Environment) (cache : ModuleCache) :
    Except PyErr (EnvInfo × ModuleCache) :=
  match detect_gpu_availability env.nvidiaSmi env.torchCuda with
  | .error e => .error e
  | .ok has_gpu =>
  let available_ports := get_available_ports env.portBindable 8000 10
  let dev_mode := (env.environmentVar.getD "development") == "development"
  match check_command_availability (env.commandRun "git") with
  | .error e => .error e
  | .ok has_git =>
  match check_command_availability (env.commandRun "docker") with
  | .error e => .error e
  | .ok has_docker =>
  match check_command_availability (env.commandRun "ollama") with
  | .error e => .error e
  | .ok has_ollama =>
  match check_command_availability (env.commandRun "dvc") with
  | .error e => .error e
  | .ok has_dvc =>
  match check_module_availability env.importRun cache "fastapi" with
  | .error e => .error e
  | .ok (has_fastapi, c1) =>
  match check_module_availability env.importRun c1 "pandas" with
  | .error e => .error e
  | .ok (has_pandas, c2) =>
  match check_module_availability env.importRun c2 "sklearn" with
  | .error e => .error e
  | .ok (has_sklearn, c3) =>
  match check_module_availability env.importRun c3 "torch" with
  | .error e => .error e
  | .ok (has_torch, c4) =>
  match check_module_availability env.importRun c4 "tensorflow" with
  | .error e => .error e
  | .ok (has_tensorflow, c5) =>
  .ok ({ python_version := env.pythonVersion
         platform := env.platform
         working_directory := env.workingDirectory
         has_gpu := has_gpu
         available_ports := available_ports
         dev_mode := dev_mode
         has_git := has_git
         has_docker := has_docker
         has_ollama := has_ollama
         has_dvc := has_dvc
         has_fastapi := has_fastapi
         has_pandas := has_pandas
         has_sklearn := has_sklearn
         has_torch := has_torch
         has_tensorflow := has_tensorflow }, c5)

/-- `IntelligentConfig.get_dynamic_paths` (lines 103-121): the returned
paths dict (the `mkdir(exist_ok=True)` side effects do not affect the
value). -/
def get_dynamic_paths (env : Environment) : PathsConfig :=
  { base := env.basePath
    data_dir := env.basePath ++ "/data"
    models_dir := env.basePath ++ "/models"
    reports_dir := env.basePath ++ "/reports"
    logs_dir := env.basePath ++ "/logs"
    config_file := env.basePath ++ "/config.yaml" }

/-- `IntelligentConfig.get_data_config` (lines 123-133). -/
def get_data_config (env : Environment) : DataConfig :=
  { raw_data := env.basePath ++ "/data/raw"
    processed_data := env.basePath ++ "/data/processed"
    sample_size := 1000
    validation_split := (2 : ℚ)/10
    test_split := (1 : ℚ)/10 }

/-- `IntelligentConfig.get_model_config` (lines 135-149): probes the GPU
afresh and derives the model hyperparameters. -/
def get_model_config (env : Environment) : Except PyErr ModelConfig :=
  match detect_gpu_availability env.nvidiaSmi env.torchCuda with
  | .error e => .error e
  | .ok has_gpu =>
    .ok { mtype := "sklearn_ensemble"
          algorithm := "RandomForestClassifier"
          n_estimators := 100
          random_state := 42
          n_jobs := if has_gpu then 1 else -1
          use_gpu := has_gpu
          model_path := env.basePath ++ "/models/model.joblib" }

/-- `IntelligentConfig.get_llm_config` (lines 151-170): checks the `ollama`
command, picks the backend model name through
`detect_available_ollama_model` when Ollama is present (else the literal
`"phi3:mini"`), and adds a fallback message when absent. -/
def get_llm_config (env : Environment) : Except PyErr LlmConfig :=
  match check_command_availability (env.commandRun "ollama") with
  | .error e => .error e
  | .ok has_ollama =>
    let available_model :=
      if has_ollama then detect_available_ollama_model env.ollamaProbe else "phi3:mini"
    .ok { enabled := has_ollama
          provider := if has_ollama then "ollama" else "none"
          model := available_model
          api_base := "http://localhost:11434"
          temperature := (7 : ℚ)/10
          max_tokens := 2000
          fallback_message :=
            if has_ollama then none else some "LLM features disabled - Ollama not available" }

/-- `IntelligentConfig.get_monitoring_config` (lines 202-211): one cached
module check for `prometheus_client`. -/
def get_monitoring_config (env : Environment) (cache : ModuleCache) :
    Except PyErr (MonitoringConfig × ModuleCache) :=
  match check_module_availability env.importRun cache "prometheus_client" with
  | .error e => .error e
  | .ok (has_prometheus, c1) =>
    .ok ({ metrics_enabled := has_prometheus
           metrics_port := 9090
           logging_level := "INFO"
           health_check_interval := 30 }, c1)

/-- `IntelligentConfig.get_dynamic_config` (lines 78-101): builds `env_info`
first, then the config dict; in the dict literal the cache-touching calls
evaluate in the order `detect_environment`, then `get_monitoring_config`;
`api.port` is `env_info["available_ports"][0]` and `api.reload` is
`env_info["dev_mode"]`. -/
def get_dynamic_config (env : Environment) (cache : ModuleCache) :
    Except PyErr (RuntimeConfig × ModuleCache) :=
  match detect_environment env cache with
  | .error e => .error e
  | .ok (env_info, c1) =>
  match get_model_config env with
  | .error e => .error e
  | .ok models =>
  match get_llm_config env with
  | .error e => .error e
  | .ok llm =>
  match get_monitoring_config env c1 with
  | .error e => .error e
  | .ok (monitoring, c2) =>
  .ok ({ project := { name := "omnitide-ai-suite"
                      version := "1.0.0"
                      description := "Dynamic MLOps & LLM Platform" }
         api := { host := "0.0.0.0"
                  port := env_info.available_ports.headD 8000
                  reload := env_info.dev_mode }
         paths := get_dynamic_paths env
         data := get_data_config env
         models := models
         llm := llm
         monitoring := monitoring
         environment := env_info }, c2)

/-! ## Model loader / fallback chain (main_intelligent.py) -/

/-- The mutable fields of `IntelligentModelLoader` (main_intelligent.py
lines 96-103): `self.model`, `self.preprocessor`, `self.model_available`.
`α` and `β` are the types of loaded model and preprocessor objects. -/
structure LoaderState (α β : Type) where
  model : Option α
  preprocessor : Option β
  model_available : Bool
deriving Repr, DecidableEq

/-- Outcomes of the external calls made by the three load strategies of
`IntelligentModelLoader` (main_intelligent.py lines 105-187): the
module-level `JOBLIB_AVAILABLE` flag, the DVC fetches (`import dvc.api`,
`dvc.api.open` and `joblib.load`, merged per artifact), the disk-file
existence tests and `joblib.load` calls, and the three stages of
`_create_dummy_model`: its `from sklearn...` / `import numpy` statements
(lines 154-156, which raise `ImportError` when those packages are absent),
then the construction-and-fit of `IntelligentFallbackModel()` and of
`IntelligentPreprocessor()` (each evaluated before the corresponding
assignment to `self`). -/
structure LoadEnv (α β : Type) where
  joblibAvailable : Bool
  dvcLoadModel : Except PyErr α
  dvcLoadPreprocessor : Except PyErr β
  modelFileExists : Bool
  preprocessorFileExists : Bool
  diskLoadModel : Except PyErr α
  diskLoadPreprocessor : Except PyErr β
  dummyImports : Option PyErr
  dummyModelBuild : Except PyErr α
  dummyPreprocessorBuild : Except PyErr β

/-- `IntelligentModelLoader._load_with_dvc` (lines 117-132): raises
`ImportError` when joblib is absent; loads the model into `self.model`,
then the preprocessor into `self.preprocessor`, then sets
`self.model_available = True`.  A raise after the first assignment leaves
the partial mutation in place (second component = the raised exception). -/
def load_with_dvc {α β : Type} (env : LoadEnv α β) (s : LoaderState α β) :
    LoaderState α β × Option PyErr :=
  if env.joblibAvailable = false then (s, some .importError)
  else
    match env.dvcLoadModel with
    | .error e => (s, some e)
    | .ok m =>
      let s1 := { s with model := some m }
      match env.dvcLoadPreprocessor with
      | .error e => (s1, some e)
      | .ok p =>
        ({ s1 with preprocessor := some p, model_available := true }, none)

/-- `IntelligentModelLoader._load_from_disk` (lines 134-148): raises
`ImportError` when joblib is absent; when both artifact files exist it
loads `self.model` then `self.preprocessor` and sets
`self.model_available = True`, else raises `FileNotFoundError`. -/
def load_from_disk {α β : Type} (env : LoadEnv α β) (s : LoaderState α β) :
    LoaderState α β × Option PyErr :=
  if env.joblibAvailable = false then (s, some .importError)
  else if env.modelFileExists && env.preprocessorFileExists then
    match env.diskLoadModel with
    | .error e => (s, some e)
    | .ok m =>
      let s1 := { s with model := some m }
      match env.diskLoadPreprocessor with
      | .error e => (s1, some e)
      | .ok p =>
        ({ s1 with preprocessor := some p, model_available := true }, none)
  else (s, some .fileNotFoundError)

/-- `IntelligentModelLoader._create_dummy_model` (lines 150-187): first the
sklearn/numpy imports (lines 154-156), which can raise `ImportError`
before any mutation; then `self.model = IntelligentFallbackModel()` (the
constructor trains on synthetic data and is evaluated before the
assignment), then `self.preprocessor = IntelligentPreprocessor()`, then
`self.model_available = True`.  Nothing in the method catches an
exception, and a raise leaves the mutations made so far in place. -/
def create_dummy_model {α β : Type} (env : LoadEnv α β) (s : LoaderState α β) :
    LoaderState α β × Option PyErr :=
  match env.dummyImports with
  | some e => (s, some e)
  | none =>
    match env.dummyModelBuild with
    | .error e => (s, some e)
    | .ok m =>
      let s1 := { s with model := some m }
      match env.dummyPreprocessorBuild with
      | .error e => (s1, some e)
      | .ok p =>
        ({ s1 with preprocessor := some p, model_available := true }, none)

/-- `IntelligentModelLoader.load_models` (lines 105-115): try DVC; on any
exception try disk; on any exception fall back to `_create_dummy_model`.
Exceptions from the first two strategies are swallowed, and the partially
mutated state they left is passed on to the next strategy; an exception
raised by `_create_dummy_model` itself has no handler and propagates to
the caller of `load_models`. -/
def load_models {α β : Type} (env : LoadEnv α β) (s : LoaderState α β) :
    LoaderState α β × Option PyErr :=
  match load_with_dvc env s with
  | (s1, none) => (s1, none)
  | (s1, some _) =>
    match load_from_disk env s1 with
    | (s2, none) => (s2, none)
    | (s2, some _) => create_dummy_model env s2

/-- `IntelligentModelLoader.__init__` (lines 99-103): start from
`model = None`, `preprocessor = None`, `model_available = False` and run
`load_models`. -/
def loader_init {α β : Type} (env : LoadEnv α β) : LoaderState α β × Option PyErr :=
  load_models env { model := none, preprocessor := none, model_available := false }

/-! ## HTTP predict handlers -/

/-- A row of the row-oriented numeric input matrix of `POST /predict`
(floats, represented exactly as rationals: the handlers move them around
but do no arithmetic on them). -/
def Row : Type := List ℚ

/-- A fitted preprocessor object as the handlers use it: its `transform`
method takes the row matrix and returns a transformed matrix or raises. -/
structure SkPreprocessor where
  transform : List Row → Except PyErr (List Row)

/-- A fitted model object as the handlers use it: its `predict` method
takes the transformed matrix and returns one label per row or raises
(`.tolist()` conversion included). -/
structure SkModel where
  predict : List Row → Except PyErr (List Int)

/-- Body of an HTTP response produced by the predict handlers. -/
inductive RespBody where
  | prediction (labels : List Int)
  | detail (msg : String)
  | errorBody (msg : String)
deriving Repr, DecidableEq

/-- An HTTP response: status code plus body.  A FastAPI handler that
returns a plain dict yields status 200; `raise HTTPException(code, d)`
yields status `code` with detail `d`. -/
structure HttpResponse where
  status : Nat
  body : RespBody
deriving Repr, DecidableEq

/-- The startup assignment of `MODEL_LOADED` in main.py (lines 47-71): the
flag becomes `True` exactly when both `MODEL` and `PREPROCESSOR` were
loaded (on the exception path it stays `False`, which only strengthens
`MODEL_LOADED = true → both present`). -/
def main_model_loaded {α β : Type} (MODEL : Option α) (PREPROCESSOR : Option β) : Bool :=
  MODEL.isSome && PREPROCESSOR.isSome

/-- The `predict` handler of main.py (lines 120-142): 503 when
`MODEL_LOADED` is false; otherwise transform and predict inside a
`try`, any exception giving a 500 with the message attached.  A `None`
preprocessor or model under a true flag would raise `AttributeError`
inside the `try` (defensive arm; unreachable under the startup flag). -/
def main_predict (MODEL : Option SkModel) (PREPROCESSOR : Option SkPreprocessor)
    (MODEL_LOADED : Bool) (data : List Row) : HttpResponse :=
  if MODEL_LOADED = false then
    { status := 503, body := .detail "Model is not available for predictions." }
  else
    match PREPROCESSOR, MODEL with
    | some pre, some mdl =>
      match pre.transform data with
      | .error e => { status := 500, body := .detail ("Prediction error: " ++ strOfErr e) }
      | .ok processed =>
        match mdl.predict processed with
        | .error e => { status := 500, body := .detail ("Prediction error: " ++ strOfErr e) }
        | .ok preds => { status := 200, body := .prediction preds }
    | _, _ =>
      { status := 500, body := .detail ("Prediction error: " ++ strOfErr .attributeError) }

/-- The `predict` handler of main_intelligent.py (lines 266-296): 503 when
`model_loader.model` or `model_loader.preprocessor` is falsy; otherwise
transform (the pandas `DataFrame` round-trip preserves the row matrix) and
predict inside a `try`, any exception giving a 500. -/
def intelligent_predict (s : LoaderState SkModel SkPreprocessor) (data : List Row) :
    HttpResponse :=
  match s.model, s.preprocessor with
  | some mdl, some pre =>
    match pre.transform data with
    | .error e => { status := 500, body := .detail (strOfErr e) }
    | .ok processed =>
      match mdl.predict processed with
      | .error e => { status := 500, body := .detail (strOfErr e) }
      | .ok preds => { status := 200, body := .prediction preds }
  | _, _ =>
    { status := 503, body := .detail "Model is not available. Check health endpoint." }

/-- The `predict` handler of main_simple.py (lines 36-51): loads the
preprocessor, then the model, transforms and predicts, all inside one
`try`; any exception is caught and returned as `{"error": str(e)}`, which
FastAPI serves with status 200; success returns the prediction list with
status 200. -/
def simple_predict (loadPreprocessor : Except PyErr SkPreprocessor)
    (loadModel : Except PyErr SkModel) (data : List Row) : HttpResponse :=
  match loadPreprocessor with
  | .error e => { status := 200, body := .errorBody (strOfErr e) }
  | .ok pre =>
    match loadModel with
    | .error e => { status := 200, body := .errorBody (strOfErr e) }
    | .ok mdl =>
      match pre.transform data with
      | .error e => { status := 200, body := .errorBody (strOfErr e) }
      | .ok processed =>
        match mdl.predict processed with
        | .error e => { status := 200, body := .errorBody (strOfErr e) }
        | .ok preds => { status := 200, body := .prediction preds }

/-! ## Sample CSV data and schema validation -/

/-- The expected column schema declared in src/config.py
(`config['data']['expected_columns']`). -/
def expected_columns : List String := ["feature1", "feature2", "feature3", "target"]

/-- The header row written by `IntelligentConfig.create_sample_data`
(src/intelligent_config.py lines 310-343).  Both branches produce it: the
pandas branch builds a DataFrame from the dict with keys `'feature_1'`,
`'feature_2'`, `'feature_3'`, `'target'` (in insertion order) and writes it
with `to_csv(index=False)`; the fallback branch writes the literal line
`"feature_1,feature_2,feature_3,target\n"`. -/
def intelligent_sample_data_header : String := "feature_1,feature_2,feature_3,target"

/-- The lines of the CSV written by the no-pandas branch of
`IntelligentConfig.create_sample_data` (lines 334-343). -/
def intelligent_sample_data_fallback_lines : List String :=
  ["feature_1,feature_2,feature_3,target", "0.1,0.2,0.3,1", "0.4,0.5,0.6,0", "0.7,0.8,0.9,1"]

/-- The lines of the CSV written by the module-level `create_sample_data` of
src/data_processor.py (lines 123-132). -/
def data_processor_sample_data_lines : List String :=
  ["feature1,feature2,feature3,target", "0.1,0.2,0.3,1", "0.4,0.5,0.6,0", "0.7,0.8,0.9,1"]

/-- The column names of the frame `IntelligentConfig.create_sample_data`
produces: the keys of the `data` dict in insertion order (lines 320-325),
which are also the fields of the fallback branch's header line. -/
def intelligent_sample_data_columns : List String :=
  ["feature_1", "feature_2", "feature_3", "target"]

/-- The column names of the CSV written by `data_processor.create_sample_data`
(the fields of its header line, src/data_processor.py line 128). -/
def data_processor_sample_data_columns : List String :=
  ["feature1", "feature2", "feature3", "target"]

/-- `validate_data` of src/data_processor.py (lines 40-52), applied to a
frame with column list `cols` and NaN-presence flag `hasNull`: raises
`ValueError` when an expected column is missing (the `expected_columns` key
is present in src/config.py) or when the frame contains NaN values. -/
def validate_data (cols : List String) (hasNull : Bool) : Except PyErr Unit :=
  if (expected_columns.all (fun c => cols.contains c)) = false then
    .error (.valueError "Input data is missing one or more expected columns.")
  else if hasNull then
    .error (.valueError "Input data contains missing (NaN) values.")
  else
    .ok ()

/-! ## Agent task orchestration -/

/-- The `result` payload of an agent task (the value stored under the
`"result"` key by `orchestrate_agent_task`). -/
inductive AgentPayload where
  | actions (l : List String)
  | envInfo (e : EnvInfo)
  | config (c : RuntimeConfig)
  | message (s : String)
deriving Repr, DecidableEq

/-- The dict returned by `orchestrate_agent_task`: a `"success"` boolean,
optionally a `"result"` payload, optionally an `"error"` message. -/
structure AgentResult where
  success : Bool
  result : Option AgentPayload
  error : Option String
deriving Repr, DecidableEq

/-- Outcomes of the sub-operations `orchestrate_agent_task` dispatches to
(src/intelligent_config.py lines 345-379): `heal_project()`,
`detect_environment()`, `get_dynamic_config()` and the pip-install
subprocess. -/
structure AgentEnv where
  healOutcome : Except PyErr (List String)
  detectOutcome : Except PyErr EnvInfo
  adaptOutcome : Except PyErr RuntimeConfig
  pipRun : List String → CmdOutcome

/-- The dispatch body of `orchestrate_agent_task` (the code inside its
`try`): task dispatch on `task_name`; for `install_deps` the inner
`try` catches only `CalledProcessError`, so other exceptions from the pip
subprocess escape the inner handler (to be caught by the outer one). -/
def orchestrate_agent_task_body (env : AgentEnv) (task_name : String)
    (params : Option (List String)) : Except PyErr AgentResult :=
  if task_name = "heal" then
    match env.healOutcome with
    | .error e => .error e
    | .ok actions => .ok { success := true, result := some (.actions actions), error := none }
  else if task_name = "detect" then
    match env.detectOutcome with
    | .error e => .error e
    | .ok env_info => .ok { success := true, result := some (.envInfo env_info), error := none }
  else if task_name = "adapt" then
    match env.adaptOutcome with
    | .error e => .error e
    | .ok cfg => .ok { success := true, result := some (.config cfg), error := none }
  else if task_name = "install_deps" then
    let missing_deps := params.getD []
    if missing_deps.isEmpty = false then
      match env.pipRun missing_deps with
      | .success =>
        .ok { success := true
              result := some (.message ("Installed: " ++ String.intercalate ", " missing_deps))
              error := none }
      | .calledProcessError =>
        .ok { success := false, result := none
              error := some ("Installation failed: " ++ strOfErr .calledProcessError) }
      | .fileNotFoundError => .error .fileNotFoundError
      | .timeoutExpired => .error .timeoutExpired
      | .otherError e => .error e
    else
      .ok { success := true, result := some (.message "No dependencies to install"), error := none }
  else
    .ok { success := false, result := none, error := some ("Unknown task: " ++ task_name) }

/-- `IntelligentConfig.orchestrate_agent_task` (lines 345-379): the dispatch
body wrapped in `try ... except Exception as e`, which converts any raised
exception into `{"success": False, "error": str(e)}`.  The `params = None`
default maps to the empty parameter dict (`params.getD []` above). -/
def orchestrate_agent_task (env : AgentEnv) (task_name : String)
    (params : Option (List String)) : Except PyErr AgentResult :=
  match orchestrate_agent_task_body env task_name params with
  | .ok r => .ok r
  | .error e => .ok { success := false, result := none, error := some (strOfErr e) }

/-- A concrete load environment with joblib and sklearn installed but no
remote store (the `import dvc.api` raises) and no local artifact files:
the first two strategies raise and the synthetic fallback succeeds. -/
def loadEnvNoArtifacts : LoadEnv Unit Unit :=
  { joblibAvailable := true
    dvcLoadModel := .error .importError
    dvcLoadPreprocessor := .error .importError
    modelFileExists := false
    preprocessorFileExists := false
    diskLoadModel := .error .fileNotFoundError
    diskLoadPreprocessor := .error .fileNotFoundError
    dummyImports := none
    dummyModelBuild := .ok ()
    dummyPreprocessorBuild := .ok () }

/-- A concrete load environment with joblib (and hence sklearn, which
depends on it) absent: the first two strategies raise `ImportError` and so
does the `from sklearn...` import inside `_create_dummy_model`. -/
def loadEnvNoSklearn : LoadEnv Unit Unit :=
  { joblibAvailable := false
    dvcLoadModel := .error .importError
    dvcLoadPreprocessor := .error .importError
    modelFileExists := false
    preprocessorFileExists := false
    diskLoadModel := .error .importError
    diskLoadPreprocessor := .error .importError
    dummyImports := some .importError
    dummyModelBuild := .error .importError
    dummyPreprocessorBuild := .error .importError }

/-- The initial loader state set by `IntelligentModelLoader.__init__`
before `load_models` runs. -/
def loaderStateEmpty : LoaderState Unit Unit :=
  { model := none, preprocessor := none, model_available := false }

/-- The availability answer `check_module_availability` resolves for a
module name given a cache and the import oracle: the cached value when
present, else the oracle's answer (`none` when the oracle raises a
non-`ImportError`).  Successive checks never change this resolution, which
is the invariant behind config-retrieval idempotence. -/
def resolvedM (imp : String → ImportOutcome) (cache : ModuleCache) (m : String) : Option Bool :=
  match cache m with
  | some b => some b
  | none =>
    match imp m with
    | .ok => some true
    | .importError => some false
    | .otherError _ => none

/-- A concrete probe outcome with every optional capability absent: every
command and import is missing, no GPU, no bindable port, no Ollama. -/
def envAllAbsent : Environment :=
  { pythonVersion := "3.11.0"
    platform := "linux"
    workingDirectory := "/w"
    environmentVar := none
    basePath := "/app"
    nvidiaSmi := .fileNotFoundError
    torchCuda := .error .importError
    portBindable := fun _ => false
    commandRun := fun _ => .fileNotFoundError
    importRun := fun _ => .importError
    ollamaProbe := { listOutcome := none, showOk := fun _ => false } }

/-- The `env_info` the all-absent probe produces. -/
def envInfoAllAbsent : EnvInfo :=
  { python_version := "3.11.0"
    platform := "linux"
    working_directory := "/w"
    has_gpu := false
    available_ports := [8000]
    dev_mode := true
    has_git := false
    has_docker := false
    has_ollama := false
    has_dvc := false
    has_fastapi := false
    has_pandas := false
    has_sklearn := false
    has_torch := false
    has_tensorflow := false }

/-- The `RuntimeConfig` the all-absent probe produces. -/
def cfgAllAbsent : RuntimeConfig :=
  { project := { name := "omnitide-ai-suite", version := "1.0.0"
                 description := "Dynamic MLOps & LLM Platform" }
    api := { host := "0.0.0.0", port := 8000, reload := true }
    paths := { base := "/app", data_dir := "/app/data", models_dir := "/app/models"
               reports_dir := "/app/reports", logs_dir := "/app/logs"
               config_file := "/app/config.yaml" }
    data := { raw_data := "/app/data/raw", processed_data := "/app/data/processed"
              sample_size := 1000, validation_split := (2 : ℚ)/10, test_split := (1 : ℚ)/10 }
    models := { mtype := "sklearn_ensemble", algorithm := "RandomForestClassifier"
                n_estimators := 100, random_state := 42, n_jobs := -1, use_gpu := false
                model_path := "/app/models/model.joblib" }
    llm := { enabled := false, provider := "none", model := "phi3:mini"
             api_base := "http://localhost:11434", temperature := (7 : ℚ)/10
             max_tokens := 2000
             fallback_message := some "LLM features disabled - Ollama not available" }
    monitoring := { metrics_enabled := false, metrics_port := 9090, logging_level := "INFO"
                    health_check_interval := 30 }
    environment := envInfoAllAbsent }

/-- The module cache state after one all-absent configuration run. -/
def cacheAfterAllAbsentRun : ModuleCache :=
  Function.update (Function.update (Function.update (Function.update (Function.update
    (Function.update (fun _ => none) "fastapi" (some false)) "pandas" (some false))
    "sklearn" (some false)) "torch" (some false)) "tensorflow" (some false))
    "prometheus_client" (some false)

/-! ## Theorems -/

/-- C4 counterexample: the claim says any error raised by the underlying
check results in `false` and no exception propagates; but
`check_command_availability` catches only the three listed exception
classes, so a `PermissionError` from `subprocess.run` (command file present
but not executable) propagates to the caller instead of yielding `false`. -/
theorem check_command_availability_propagates_uncaught :
    check_command_availability (.otherError .permissionError) = .error .permissionError ∧
    check_command_availability (.otherError .permissionError) ≠ .ok false := by
  refine ⟨rfl, ?_⟩
  simp [check_command_availability]

/-- C4 (amended): each capability check fails closed exactly on the error
kinds its `except` clause lists — non-zero exit, missing command, and
timeout for the command check; `ImportError` for the package check; the
three subprocess kinds and a torch-probe `ImportError` for the GPU check —
returning `false` without propagating; an exception of any other kind
propagates to the caller. -/
theorem capability_checks_fail_closed_on_caught_kinds :
    (check_command_availability .success = .ok true) ∧
    (check_command_availability .calledProcessError = .ok false) ∧
    (check_command_availability .fileNotFoundError = .ok false) ∧
    (check_command_availability .timeoutExpired = .ok false) ∧
    (∀ e : PyErr, check_command_availability (.otherError e) = .error e) ∧
    (∀ (imp : String → ImportOutcome) (cache : ModuleCache) (m : String),
       cache m = none → imp m = .importError →
       check_module_availability imp cache m = .ok (false, Function.update cache m (some false))) ∧
    (∀ (imp : String → ImportOutcome) (cache : ModuleCache) (m : String) (e : PyErr),
       cache m = none → imp m = .otherError e →
       check_module_availability imp cache m = .error e) ∧
    (∀ n : CmdOutcome,
       (n = .calledProcessError ∨ n = .fileNotFoundError ∨ n = .timeoutExpired) →
       detect_gpu_availability n (.error .importError) = .ok false) ∧
    (∀ (n : CmdOutcome) (e : PyErr),
       (n = .calledProcessError ∨ n = .fileNotFoundError ∨ n = .timeoutExpired) →
       e ≠ .importError →
       detect_gpu_availability n (.error e) = .error e) := by
  refine ⟨rfl, rfl, rfl, rfl, fun e => rfl, ?_, ?_, ?_, ?_⟩
  · intro imp cache m hc hi
    simp [check_module_availability, hc, hi]
  · intro imp cache m e hc hi
    simp [check_module_availability, hc, hi]
  · rintro n (rfl | rfl | rfl) <;> rfl
  · rintro n e (rfl | rfl | rfl) he <;>
      · cases e <;> simp [detect_gpu_availability] at he ⊢

/-- C4 witness for the amended theorem: concrete instances discharging each
hypothesis. -/
theorem capability_checks_fail_closed_witness :
    check_module_availability (fun _ => .importError) (fun _ => none) "pandas" =
      .ok (false, Function.update (fun _ => none) "pandas" (some false)) ∧
    check_module_availability (fun _ => .otherError (.other "boom")) (fun _ => none) "pandas" =
      .error (.other "boom") ∧
    detect_gpu_availability .fileNotFoundError (.error .importError) = .ok false ∧
    detect_gpu_availability .fileNotFoundError (.error .permissionError) =
      .error .permissionError := by
  refine ⟨?_, ?_, ?_, ?_⟩
  · exact capability_checks_fail_closed_on_caught_kinds.2.2.2.2.2.1 _ _ _ rfl rfl
  · exact capability_checks_fail_closed_on_caught_kinds.2.2.2.2.2.2.1 _ _ _ _ rfl rfl
  · exact capability_checks_fail_closed_on_caught_kinds.2.2.2.2.2.2.2.1 _
      (Or.inr (Or.inl rfl))
  · exact capability_checks_fail_closed_on_caught_kinds.2.2.2.2.2.2.2.2 _ _
      (Or.inr (Or.inl rfl)) (by simp)

/-- C5: `get_available_ports` returns exactly the ascending subset of
`[p, p + n)` whose bind probe succeeds, falling back to `[p]` when that
subset is empty, so the result is never empty. -/
theorem get_available_ports_spec (bindable : Nat → Bool) (p n : Nat) :
    get_available_ports bindable p n ≠ [] ∧
    (∀ q, q ∈ ((List.range n).map (fun i => p + i)).filter (fun q => bindable q) ↔
       (p ≤ q ∧ q < p + n ∧ bindable q = true)) ∧
    (((List.range n).map (fun i => p + i)).filter (fun q => bindable q)).Sorted (· < ·) ∧
    (((List.range n).map (fun i => p + i)).filter (fun q => bindable q) = [] →
       get_available_ports bindable p n = [p]) ∧
    (((List.range n).map (fun i => p + i)).filter (fun q => bindable q) ≠ [] →
       get_available_ports bindable p n =
         ((List.range n).map (fun i => p + i)).filter (fun q => bindable q)) := by
  refine ⟨?_, ?_, ?_, ?_, ?_⟩
  · by_cases h : (((List.range n).map (fun i => p + i)).filter (fun q => bindable q)).isEmpty
    · simp [get_available_ports, h]
    · rw [List.isEmpty_iff] at h
      simp [get_available_ports, h]
  · intro q
    simp only [List.mem_filter, List.mem_map, List.mem_range]
    constructor
    · rintro ⟨⟨i, hi, rfl⟩, hb⟩
      exact ⟨Nat.le_add_right _ _, by omega, hb⟩
    · rintro ⟨hle, hlt, hb⟩
      exact ⟨⟨q - p, by omega, by omega⟩, hb⟩
  · exact List.Pairwise.filter _
      ((List.pairwise_lt_range n).map _ (fun a b h => by omega))
  · intro h
    unfold get_available_ports
    simp [h]
  · intro h
    unfold get_available_ports
    simp [List.isEmpty_iff, h]

/-- C6 counterexample: the claim says the selected model name comes from
walking the fixed preference list, defaulting to its first element; but
when `ollama list` reports an installed model, `detect_available_ollama_model`
returns that listed name — here `"gemma:2b"`, which is not in the
preference list at all, even though no preference-list entry is confirmed
present (so the claim would require `"phi3:mini"`). -/
theorem detect_ollama_model_ignores_preference_list :
    detect_available_ollama_model
      { listOutcome := some [["NAME", "ID", "SIZE"], ["gemma:2b", "abc123", "1.7GB"]]
        showOk := fun _ => false } = "gemma:2b" ∧
    "gemma:2b" ∉ fallback_models ∧
    "gemma:2b" ≠ "phi3:mini" := by
  refine ⟨rfl, by decide, by decide⟩

/-- C6 (amended): when the `ollama list` probe reports at least one model
line, the selected name is the first word of that line (or `"phi3:mini"`
when the line is blank); only when the listing yields no model line does
the synthesizer walk the fixed preference list, picking the first entry
confirmed by the `ollama show` probe, else the list's first element
`"phi3:mini"`. -/
theorem detect_ollama_model_amended (pr : OllamaProbe) :
    (∀ header w ws rest, pr.listOutcome = some (header :: (w :: ws) :: rest) →
       detect_available_ollama_model pr = w) ∧
    (∀ header rest, pr.listOutcome = some (header :: [] :: rest) →
       detect_available_ollama_model pr = "phi3:mini") ∧
    (pr.listOutcome = none →
       detect_available_ollama_model pr = ollama_fallback_walk pr.showOk) ∧
    (∀ lines, pr.listOutcome = some lines → lines.length ≤ 1 →
       detect_available_ollama_model pr = ollama_fallback_walk pr.showOk) ∧
    (∀ m, fallback_models.find? (fun m2 => pr.showOk m2) = some m →
       ollama_fallback_walk pr.showOk = m ∧ m ∈ fallback_models ∧ pr.showOk m = true) ∧
    ((∀ m ∈ fallback_models, pr.showOk m = false) →
       ollama_fallback_walk pr.showOk = "phi3:mini" ∧
       fallback_models.headD "" = "phi3:mini") := by
  refine ⟨?_, ?_, ?_, ?_, ?_, ?_⟩
  · intro header w ws rest h
    simp [detect_available_ollama_model, h]
  · intro header rest h
    simp [detect_available_ollama_model, h]
  · intro h
    simp [detect_available_ollama_model, h]
  · intro lines h hlen
    match lines, hlen with
    | [], _ => simp [detect_available_ollama_model, h]
    | [l], _ => simp [detect_available_ollama_model, h]
  · intro m h
    refine ⟨by simp [ollama_fallback_walk, h], List.mem_of_find?_eq_some h, ?_⟩
    have := List.find?_some h
    simpa using this
  · intro h
    have hnone : fallback_models.find? (fun m2 => pr.showOk m2) = none := by
      rw [List.find?_eq_none]
      intro x hx
      simp [h x hx]
    exact ⟨by simp [ollama_fallback_walk, hnone], rfl⟩

/-- C6 witness for the amended theorem: concrete probes discharging the
hypotheses of each conjunct. -/
theorem detect_ollama_model_amended_witness :
    detect_available_ollama_model
      { listOutcome := some [["NAME"], ["phi3:mini", "x"]], showOk := fun _ => false } =
      "phi3:mini" ∧
    detect_available_ollama_model
      { listOutcome := none, showOk := fun m => m == "llama3.2:3b" } =
      ollama_fallback_walk (fun m => m == "llama3.2:3b") ∧
    detect_available_ollama_model
      { listOutcome := some [["NAME"]], showOk := fun _ => false } =
      ollama_fallback_walk (fun _ => false) ∧
    ollama_fallback_walk (fun _ => false) = "phi3:mini" := by
  refine ⟨?_, ?_, ?_, ?_⟩
  · exact (detect_ollama_model_amended _).1 ["NAME"] "phi3:mini" ["x"] [] rfl
  · exact (detect_ollama_model_amended
      { listOutcome := none, showOk := fun m => m == "llama3.2:3b" }).2.2.1 rfl
  · exact (detect_ollama_model_amended _).2.2.2.1 [["NAME"]] rfl (by decide)
  · exact ((detect_ollama_model_amended
      { listOutcome := none, showOk := fun _ => false }).2.2.2.2.2 (by simp)).1

/-- C9: the repository's own schema (`config['data']['expected_columns']`
and `data_processor.create_sample_data`) fixes the header
`feature1,feature2,feature3,target`, but `IntelligentConfig.create_sample_data`
— the fallback creator that `heal_project` and `process_data` actually
invoke — writes `feature_1,feature_2,feature_3,target`, whose columns then
fail the repository's own `validate_data` check. -/
theorem intelligent_sample_data_header_mismatch :
    intelligent_sample_data_header ≠ "feature1,feature2,feature3,target" ∧
    intelligent_sample_data_header = String.intercalate "," intelligent_sample_data_columns ∧
    validate_data intelligent_sample_data_columns false =
      .error (.valueError "Input data is missing one or more expected columns.") ∧
    intelligent_sample_data_fallback_lines.headD "" = intelligent_sample_data_header ∧
    data_processor_sample_data_lines.headD "" =
      String.intercalate "," data_processor_sample_data_columns ∧
    data_processor_sample_data_columns = expected_columns ∧
    validate_data data_processor_sample_data_columns false = .ok () := by
  refine ⟨by decide, rfl, ?_, rfl, rfl, rfl, ?_⟩
  · have h : (expected_columns.all
        (fun c => intelligent_sample_data_columns.contains c)) = false := by decide
    unfold validate_data
    rw [h]
    simp
  · have h : (expected_columns.all
        (fun c => data_processor_sample_data_columns.contains c)) = true := by decide
    unfold validate_data
    rw [h]
    simp

/-- C10: `orchestrate_agent_task` never lets an exception escape (the outer
handler converts any raised exception into a failure result), and an
unknown task name yields `success = false` with an error message naming the
task. -/
theorem orchestrate_agent_task_total (env : AgentEnv) (task_name : String)
    (params : Option (List String)) :
    (∃ r : AgentResult, orchestrate_agent_task env task_name params = .ok r) ∧
    (task_name ∉ (["heal", "detect", "adapt", "install_deps"] : List String) →
       orchestrate_agent_task env task_name params =
         .ok { success := false, result := none
               error := some ("Unknown task: " ++ task_name) }) := by
  constructor
  · cases h : orchestrate_agent_task_body env task_name params with
    | ok r => exact ⟨r, by simp [orchestrate_agent_task, h]⟩
    | error e =>
      exact ⟨{ success := false, result := none, error := some (strOfErr e) },
        by simp [orchestrate_agent_task, h]⟩
  · intro hmem
    simp only [List.mem_cons, List.not_mem_nil, or_false, not_or] at hmem
    obtain ⟨h1, h2, h3, h4⟩ := hmem
    simp [orchestrate_agent_task, orchestrate_agent_task_body, h1, h2, h3, h4]

/-- C10 witness: a concrete environment and unknown task name. -/
theorem orchestrate_agent_task_total_witness :
    orchestrate_agent_task
      { healOutcome := .error (.other "disk full"), detectOutcome := .error (.other "x")
        adaptOutcome := .error (.other "y"), pipRun := fun _ => .fileNotFoundError }
      "frobnicate" none =
      .ok { success := false, result := none, error := some ("Unknown task: frobnicate") } := by
  exact (orchestrate_agent_task_total _ "frobnicate" none).2 (by decide)

/-- Helper: `_load_with_dvc` completing without raising leaves the loader
fully populated (it sets model, preprocessor and the flag before
returning normally). -/
theorem load_with_dvc_complete_full {α β : Type} (env : LoadEnv α β) (s s1 : LoaderState α β)
    (h : load_with_dvc env s = (s1, none)) :
    s1.model.isSome ∧ s1.preprocessor.isSome ∧ s1.model_available = true := by
  unfold load_with_dvc at h
  split at h
  · simp at h
  · split at h
    · simp at h
    · split at h
      · simp at h
      · injection h with hA hB
        subst hA
        exact ⟨rfl, rfl, rfl⟩

/-- Helper: `_load_from_disk` completing without raising leaves the loader
fully populated. -/
theorem load_from_disk_complete_full {α β : Type} (env : LoadEnv α β) (s s1 : LoaderState α β)
    (h : load_from_disk env s = (s1, none)) :
    s1.model.isSome ∧ s1.preprocessor.isSome ∧ s1.model_available = true := by
  unfold load_from_disk at h
  split at h
  · simp at h
  · split at h
    · split at h
      · simp at h
      · split at h
        · simp at h
        · injection h with hA hB
          subst hA
          exact ⟨rfl, rfl, rfl⟩
    · simp at h

/-- Helper: `_create_dummy_model` completing without raising leaves the
loader fully populated. -/
theorem create_dummy_model_complete_full {α β : Type} (env : LoadEnv α β)
    (s s1 : LoaderState α β) (h : create_dummy_model env s = (s1, none)) :
    s1.model.isSome ∧ s1.preprocessor.isSome ∧ s1.model_available = true := by
  unfold create_dummy_model at h
  split at h
  · simp at h
  · split at h
    · simp at h
    · split at h
      · simp at h
      · injection h with hA hB
        subst hA
        exact ⟨rfl, rfl, rfl⟩

/-- C1 counterexample: the claim says that whenever the DVC and disk
strategies raise, `load_models` ends synthetic-fallback, available, and
never raises; but `_create_dummy_model` begins with sklearn/numpy imports
that nothing catches, so in an environment with joblib (and hence sklearn)
absent, both premises hold and yet `load_models` propagates the
`ImportError` and leaves the bundle unavailable. -/
theorem load_models_dummy_import_raises :
    (load_with_dvc loadEnvNoSklearn loaderStateEmpty).2 ≠ none ∧
    (load_from_disk loadEnvNoSklearn
        (load_with_dvc loadEnvNoSklearn loaderStateEmpty).1).2 ≠ none ∧
    load_models loadEnvNoSklearn loaderStateEmpty =
      (loaderStateEmpty, some .importError) ∧
    (load_models loadEnvNoSklearn loaderStateEmpty).1.model_available = false := by
  refine ⟨?_, ?_, rfl, rfl⟩ <;>
    simp [load_with_dvc, load_from_disk, loadEnvNoSklearn, loaderStateEmpty]

/-- C1 (amended): whenever the DVC strategy raises and the disk strategy
(run from the state the DVC attempt left behind) raises, `load_models`
runs the synthetic fallback: if the sklearn/numpy imports succeed and both
synthetic objects construct, it completes without raising, with both
objects installed and `model_available = true`; if the imports raise, the
exception propagates out of `load_models` (the fatal case of the fallback
chain). -/
theorem load_models_synthetic_fallback {α β : Type} (env : LoadEnv α β) (s : LoaderState α β)
    (hdvc : (load_with_dvc env s).2 ≠ none)
    (hdisk : (load_from_disk env (load_with_dvc env s).1).2 ≠ none) :
    (∀ (m : α) (p : β), env.dummyImports = none → env.dummyModelBuild = .ok m →
       env.dummyPreprocessorBuild = .ok p →
       load_models env s =
         ({ model := some m, preprocessor := some p, model_available := true }, none)) ∧
    (∀ e, env.dummyImports = some e →
       load_models env s = ((load_from_disk env (load_with_dvc env s).1).1, some e)) := by
  have hred : load_models env s =
      create_dummy_model env ((load_from_disk env (load_with_dvc env s).1).1) := by
    unfold load_models
    cases h1 : load_with_dvc env s with
    | mk s1 e1 =>
      rw [h1] at hdvc hdisk
      cases e1 with
      | none => exact absurd rfl hdvc
      | some e =>
        simp only at hdisk
        cases h2 : load_from_disk env s1 with
        | mk s2 e2 =>
          rw [h2] at hdisk
          cases e2 with
          | none => exact absurd rfl hdisk
          | some e2v => simp [h2]
  constructor
  · intro m p himp hm hp
    rw [hred]
    simp [create_dummy_model, himp, hm, hp]
  · intro e himp
    rw [hred]
    simp [create_dummy_model, himp]

/-- C1 witness for the amended theorem: a concrete environment with no
remote store and no local artifact but sklearn present, where the
synthetic fallback succeeds. -/
theorem load_models_synthetic_fallback_witness :
    (load_with_dvc loadEnvNoArtifacts loaderStateEmpty).2 ≠ none ∧
    (load_from_disk loadEnvNoArtifacts
        (load_with_dvc loadEnvNoArtifacts loaderStateEmpty).1).2 ≠ none ∧
    load_models loadEnvNoArtifacts loaderStateEmpty =
      ({ model := some (), preprocessor := some (), model_available := true }, none) := by
  refine ⟨?h1, ?h2, ?_⟩
  case h1 => simp [load_with_dvc, loadEnvNoArtifacts]
  case h2 => simp [load_with_dvc, load_from_disk, loadEnvNoArtifacts]
  exact (load_models_synthetic_fallback loadEnvNoArtifacts loaderStateEmpty
      (by simp [load_with_dvc, loadEnvNoArtifacts])
      (by simp [load_with_dvc, load_from_disk, loadEnvNoArtifacts])).1 () () rfl rfl rfl

/-- C2: after any completed (non-raising) run of `load_models` from any
starting state — in particular the `__init__` construction from the empty
state, and any later reload — the loader state is never partial: either
both halves are set with `model_available = true`, or both are unset with
`model_available = false`. -/
theorem load_models_no_partial_state {α β : Type} (env : LoadEnv α β) (s0 : LoaderState α β)
    (hcomplete : (load_models env s0).2 = none) :
    ((load_models env s0).1.model.isSome ∧ (load_models env s0).1.preprocessor.isSome ∧
       (load_models env s0).1.model_available = true) ∨
    ((load_models env s0).1.model = none ∧ (load_models env s0).1.preprocessor = none ∧
       (load_models env s0).1.model_available = false) := by
  left
  cases h1 : load_with_dvc env s0 with
  | mk s1 e1 =>
    cases e1 with
    | none =>
      have hres : load_models env s0 = (s1, none) := by
        unfold load_models
        rw [h1]
      rw [hres]
      exact load_with_dvc_complete_full env s0 s1 h1
    | some e =>
      cases h2 : load_from_disk env s1 with
      | mk s2 e2 =>
        cases e2 with
        | none =>
          have hres : load_models env s0 = (s2, none) := by
            unfold load_models
            rw [h1]
            simp [h2]
          rw [hres]
          exact load_from_disk_complete_full env s1 s2 h2
        | some e2v =>
          have hres : load_models env s0 = create_dummy_model env s2 := by
            unfold load_models
            rw [h1]
            simp [h2]
          rw [hres] at hcomplete ⊢
          cases h3 : create_dummy_model env s2 with
          | mk s3 e3 =>
            rw [h3] at hcomplete
            cases e3 with
            | none => exact create_dummy_model_complete_full env s2 s3 h3
            | some e4 => simp at hcomplete

/-- C2 witness: the construction run in the no-artifact environment
completes and is fully populated. -/
theorem load_models_no_partial_state_witness :
    (load_models loadEnvNoArtifacts loaderStateEmpty).2 = none ∧
    (((load_models loadEnvNoArtifacts loaderStateEmpty).1.model.isSome ∧
        (load_models loadEnvNoArtifacts loaderStateEmpty).1.preprocessor.isSome ∧
        (load_models loadEnvNoArtifacts loaderStateEmpty).1.model_available = true) ∨
      ((load_models loadEnvNoArtifacts loaderStateEmpty).1.model = none ∧
        (load_models loadEnvNoArtifacts loaderStateEmpty).1.preprocessor = none ∧
        (load_models loadEnvNoArtifacts loaderStateEmpty).1.model_available = false)) := by
  refine ⟨?hc, ?_⟩
  case hc =>
    simp [load_models, load_with_dvc, load_from_disk, create_dummy_model, loadEnvNoArtifacts]
  exact load_models_no_partial_state loadEnvNoArtifacts loaderStateEmpty
    (by simp [load_models, load_with_dvc, load_from_disk, create_dummy_model,
      loadEnvNoArtifacts])

/-- C3 counterexample: the claim says a predict request against an absent
bundle is answered 503 and never 2xx, across all three predict handlers;
but main_simple.py's handler catches the failed artifact load and returns
`{"error": str(e)}` as a plain dict, which FastAPI serves with status 200 —
a 2xx success response. -/
theorem simple_predict_absent_bundle_is_200 :
    (simple_predict (.error .fileNotFoundError) (.error .fileNotFoundError)
        [[1, 2, 3]]).status = 200 ∧
    (simple_predict (.error .fileNotFoundError) (.error .fileNotFoundError)
        [[1, 2, 3]]).status ≠ 503 ∧
    simple_predict (.error .fileNotFoundError) (.error .fileNotFoundError) [[1, 2, 3]] =
      { status := 200, body := .errorBody "FileNotFoundError" } := by
  exact ⟨rfl, by decide, rfl⟩

/-- C3 (amended): against an absent bundle, the predict handlers of main.py
and main_intelligent.py respond 503 (never 2xx), while main_simple.py's
handler instead reports the load failure in a 200 response whose body is an
error object. -/
theorem predict_absent_bundle_responses :
    (∀ (M : Option SkModel) (P : Option SkPreprocessor) (data : List Row),
       (M = none ∨ P = none) →
       main_predict M P (main_model_loaded M P) data =
         { status := 503, body := .detail "Model is not available for predictions." }) ∧
    (∀ (s : LoaderState SkModel SkPreprocessor) (data : List Row),
       (s.model = none ∨ s.preprocessor = none) →
       intelligent_predict s data =
         { status := 503, body := .detail "Model is not available. Check health endpoint." }) ∧
    (∀ (e : PyErr) (lm : Except PyErr SkModel) (data : List Row),
       simple_predict (.error e) lm data =
         { status := 200, body := .errorBody (strOfErr e) }) ∧
    (∀ (pre : SkPreprocessor) (e : PyErr) (data : List Row),
       simple_predict (.ok pre) (.error e) data =
         { status := 200, body := .errorBody (strOfErr e) }) := by
  refine ⟨?_, ?_, ?_, ?_⟩
  · rintro M P data (rfl | rfl)
    · simp [main_predict, main_model_loaded]
    · cases M <;> simp [main_predict, main_model_loaded]
  · rintro s data h
    cases hm : s.model with
    | none => simp [intelligent_predict, hm]
    | some mdl =>
      cases hp : s.preprocessor with
      | none => simp [intelligent_predict, hm, hp]
      | some pre =>
        rcases h with h | h
        · rw [hm] at h
          exact absurd h (by simp)
        · rw [hp] at h
          exact absurd h (by simp)
  · intro e lm data
    rfl
  · intro pre e data
    rfl

/-- C3 witness for the amended theorem: concrete absent-bundle requests for
each handler. -/
theorem predict_absent_bundle_responses_witness :
    main_predict none none
        (main_model_loaded (none : Option SkModel) (none : Option SkPreprocessor)) [[1, 2]] =
      { status := 503, body := .detail "Model is not available for predictions." } ∧
    intelligent_predict { model := none, preprocessor := none, model_available := false }
        [[1, 2]] =
      { status := 503, body := .detail "Model is not available. Check health endpoint." } ∧
    simple_predict (.error .importError) (.error .importError) [[1, 2]] =
      { status := 200, body := .errorBody "ImportError" } := by
  refine ⟨?_, ?_, ?_⟩
  · exact predict_absent_bundle_responses.1 none none [[1, 2]] (Or.inl rfl)
  · exact predict_absent_bundle_responses.2.1 _ [[1, 2]] (Or.inl rfl)
  · exact predict_absent_bundle_responses.2.2.1 .importError (.error .importError) [[1, 2]]

/-- C8: against an available bundle whose fitted preprocessor and model act
row-wise (the sklearn contract: `transform` maps row `r` to `f r`,
`predict` labels row `r` with `g r`), both the main.py and
main_intelligent.py predict handlers return 200 with one label per input
row, in input order: the list has the input's length and entry `i` is the
prediction for input row `i`. -/
theorem predict_preserves_rows (pre : SkPreprocessor) (mdl : SkModel)
    (f : Row → Row) (g : Row → Int) (data : List Row)
    (htrans : pre.transform data = .ok (data.map f))
    (hpred : mdl.predict (data.map f) = .ok ((data.map f).map g)) :
    main_predict (some mdl) (some pre) (main_model_loaded (some mdl) (some pre)) data =
      { status := 200, body := .prediction (data.map (fun r => g (f r))) } ∧
    intelligent_predict
        { model := some mdl, preprocessor := some pre, model_available := true } data =
      { status := 200, body := .prediction (data.map (fun r => g (f r))) } ∧
    (data.map (fun r => g (f r))).length = data.length ∧
    (∀ (i : Nat) (h1 : i < (data.map (fun r => g (f r))).length) (h2 : i < data.length),
       (data.map (fun r => g (f r))).get ⟨i, h1⟩ = g (f (data.get ⟨i, h2⟩))) := by
  refine ⟨?_, ?_, by simp, ?_⟩
  · simp [main_predict, main_model_loaded, htrans, hpred, List.map_map, Function.comp]
  · simp [intelligent_predict, htrans, hpred, List.map_map, Function.comp]
  · intro i h1 h2
    simp [List.getElem_map]

/-- C8 witness: a concrete row-wise preprocessor and model on a two-row
input. -/
theorem predict_preserves_rows_witness :
    main_predict (some ({ predict := fun rs => .ok (rs.map (fun _ => (1 : Int))) } : SkModel))
        (some ({ transform := fun rs => .ok rs } : SkPreprocessor))
        (main_model_loaded
          (some ({ predict := fun rs => .ok (rs.map (fun _ => (1 : Int))) } : SkModel))
          (some ({ transform := fun rs => .ok rs } : SkPreprocessor)))
        [[1], [2]] =
      { status := 200, body := .prediction [1, 1] } := by
  have h := predict_preserves_rows ({ transform := fun rs => .ok rs } : SkPreprocessor)
    ({ predict := fun rs => .ok (rs.map (fun _ => (1 : Int))) } : SkModel)
    (fun r => r) (fun _ => (1 : Int)) [[1], [2]] rfl rfl
  exact h.1

/-- Helper: a successful module check returns the resolved answer and
leaves the resolution of every module unchanged. -/
theorem check_module_availability_ok {imp : String → ImportOutcome} {cache : ModuleCache}
    {m : String} {b : Bool} {c2 : ModuleCache}
    (h : check_module_availability imp cache m = .ok (b, c2)) :
    resolvedM imp cache m = some b ∧
    (∀ m2, resolvedM imp c2 m2 = resolvedM imp cache m2) := by
  unfold check_module_availability at h
  cases hc : cache m with
  | some b0 =>
    rw [hc] at h
    simp only [Except.ok.injEq, Prod.mk.injEq] at h
    obtain ⟨rfl, rfl⟩ := h
    exact ⟨by simp [resolvedM, hc], fun m2 => rfl⟩
  | none =>
    rw [hc] at h
    cases hi : imp m with
    | ok =>
      rw [hi] at h
      simp only [Except.ok.injEq, Prod.mk.injEq] at h
      obtain ⟨rfl, rfl⟩ := h
      refine ⟨by simp [resolvedM, hc, hi], fun m2 => ?_⟩
      unfold resolvedM
      by_cases hm : m2 = m
      · subst hm
        simp [Function.update_same, hc, hi]
      · simp [Function.update_noteq hm]
    | importError =>
      rw [hi] at h
      simp only [Except.ok.injEq, Prod.mk.injEq] at h
      obtain ⟨rfl, rfl⟩ := h
      refine ⟨by simp [resolvedM, hc, hi], fun m2 => ?_⟩
      unfold resolvedM
      by_cases hm : m2 = m
      · subst hm
        simp [Function.update_same, hc, hi]
      · simp [Function.update_noteq hm]
    | otherError e =>
      rw [hi] at h
      exact absurd h (by simp)

/-- Helper: when the resolution of a module is settled, the module check
succeeds with that answer (from any cache with that resolution) and
preserves all resolutions. -/
theorem check_module_availability_of_resolved {imp : String → ImportOutcome}
    {cache : ModuleCache} {m : String} {b : Bool}
    (h : resolvedM imp cache m = some b) :
    ∃ c2, check_module_availability imp cache m = .ok (b, c2) ∧
      (∀ m2, resolvedM imp c2 m2 = resolvedM imp cache m2) := by
  unfold resolvedM at h
  cases hc : cache m with
  | some b0 =>
    rw [hc] at h
    injection h with h
    subst h
    exact ⟨cache, by simp [check_module_availability, hc], fun m2 => rfl⟩
  | none =>
    rw [hc] at h
    cases hi : imp m with
    | ok =>
      rw [hi] at h
      injection h with h
      subst h
      refine ⟨Function.update cache m (some true),
        by simp [check_module_availability, hc, hi], fun m2 => ?_⟩
      unfold resolvedM
      by_cases hm : m2 = m
      · subst hm
        simp [Function.update_same, hc, hi]
      · simp [Function.update_noteq hm]
    | importError =>
      rw [hi] at h
      injection h with h
      subst h
      refine ⟨Function.update cache m (some false),
        by simp [check_module_availability, hc, hi], fun m2 => ?_⟩
      unfold resolvedM
      by_cases hm : m2 = m
      · subst hm
        simp [Function.update_same, hc, hi]
      · simp [Function.update_noteq hm]
    | otherError e =>
      rw [hi] at h
      exact absurd h (by simp)

/-- Helper: a completed environment detection leaves every module
resolution unchanged, and rerunning it from any cache with the same
resolutions reproduces the same `env_info`. -/
theorem detect_environment_stable (env : Environment) (cache c3 : ModuleCache)
    (info : EnvInfo) (c2 : ModuleCache)
    (h : detect_environment env cache = .ok (info, c2))
    (hres : ∀ m, resolvedM env.importRun c3 m = resolvedM env.importRun cache m) :
    (∀ m, resolvedM env.importRun c2 m = resolvedM env.importRun cache m) ∧
    ∃ c4, detect_environment env c3 = .ok (info, c4) ∧
      (∀ m, resolvedM env.importRun c4 m = resolvedM env.importRun c3 m) := by
  unfold detect_environment at h
  cases hg : detect_gpu_availability env.nvidiaSmi env.torchCuda with
  | error e => simp [hg] at h
  | ok has_gpu =>
  simp only [hg] at h
  cases hgit : check_command_availability (env.commandRun "git") with
  | error e => simp [hgit] at h
  | ok has_git =>
  simp only [hgit] at h
  cases hdocker : check_command_availability (env.commandRun "docker") with
  | error e => simp [hdocker] at h
  | ok has_docker =>
  simp only [hdocker] at h
  cases hollama : check_command_availability (env.commandRun "ollama") with
  | error e => simp [hollama] at h
  | ok has_ollama =>
  simp only [hollama] at h
  cases hdvc : check_command_availability (env.commandRun "dvc") with
  | error e => simp [hdvc] at h
  | ok has_dvc =>
  simp only [hdvc] at h
  cases hm1 : check_module_availability env.importRun cache "fastapi" with
  | error e => simp [hm1] at h
  | ok p1 =>
  obtain ⟨b1, ca1⟩ := p1
  simp only [hm1] at h
  obtain ⟨hr1, hp1⟩ := check_module_availability_ok hm1
  cases hm2 : check_module_availability env.importRun ca1 "pandas" with
  | error e => simp [hm2] at h
  | ok p2 =>
  obtain ⟨b2, ca2⟩ := p2
  simp only [hm2] at h
  obtain ⟨hr2, hp2⟩ := check_module_availability_ok hm2
  cases hm3 : check_module_availability env.importRun ca2 "sklearn" with
  | error e => simp [hm3] at h
  | ok p3 =>
  obtain ⟨b3, ca3⟩ := p3
  simp only [hm3] at h
  obtain ⟨hr3, hp3⟩ := check_module_availability_ok hm3
  cases hm4 : check_module_availability env.importRun ca3 "torch" with
  | error e => simp [hm4] at h
  | ok p4 =>
  obtain ⟨b4, ca4⟩ := p4
  simp only [hm4] at h
  obtain ⟨hr4, hp4⟩ := check_module_availability_ok hm4
  cases hm5 : check_module_availability env.importRun ca4 "tensorflow" with
  | error e => simp [hm5] at h
  | ok p5 =>
  obtain ⟨b5, ca5⟩ := p5
  simp only [hm5] at h
  obtain ⟨hr5, hp5⟩ := check_module_availability_ok hm5
  simp only [Except.ok.injEq, Prod.mk.injEq] at h
  obtain ⟨hinfo, hc2⟩ := h
  subst hinfo
  subst hc2
  have R2 : resolvedM env.importRun cache "pandas" = some b2 := by
    rw [← hp1]
    exact hr2
  have R3 : resolvedM env.importRun cache "sklearn" = some b3 := by
    rw [← hp1, ← hp2]
    exact hr3
  have R4 : resolvedM env.importRun cache "torch" = some b4 := by
    rw [← hp1, ← hp2, ← hp3]
    exact hr4
  have R5 : resolvedM env.importRun cache "tensorflow" = some b5 := by
    rw [← hp1, ← hp2, ← hp3, ← hp4]
    exact hr5
  refine ⟨fun m => by rw [hp5, hp4, hp3, hp2, hp1], ?_⟩
  obtain ⟨d1, hd1, hq1⟩ := check_module_availability_of_resolved
    (show resolvedM env.importRun c3 "fastapi" = some b1 by rw [hres]; exact hr1)
  obtain ⟨d2, hd2, hq2⟩ := check_module_availability_of_resolved
    (show resolvedM env.importRun d1 "pandas" = some b2 by rw [hq1, hres]; exact R2)
  obtain ⟨d3, hd3, hq3⟩ := check_module_availability_of_resolved
    (show resolvedM env.importRun d2 "sklearn" = some b3 by rw [hq2, hq1, hres]; exact R3)
  obtain ⟨d4, hd4, hq4⟩ := check_module_availability_of_resolved
    (show resolvedM env.importRun d3 "torch" = some b4 by rw [hq3, hq2, hq1, hres]; exact R4)
  obtain ⟨d5, hd5, hq5⟩ := check_module_availability_of_resolved
    (show resolvedM env.importRun d4 "tensorflow" = some b5 by
      rw [hq4, hq3, hq2, hq1, hres]; exact R5)
  refine ⟨d5, ?_, fun m => by rw [hq5, hq4, hq3, hq2, hq1]⟩
  unfold detect_environment
  simp only [hg, hgit, hdocker, hollama, hdvc, hd1, hd2, hd3, hd4, hd5]

/-- Helper: the monitoring section behaves like one module check: a
completed run preserves resolutions and reruns identically from any
resolution-equal cache. -/
theorem get_monitoring_config_stable (env : Environment) (cache c3 : ModuleCache)
    (mon : MonitoringConfig) (c2 : ModuleCache)
    (h : get_monitoring_config env cache = .ok (mon, c2))
    (hres : ∀ m, resolvedM env.importRun c3 m = resolvedM env.importRun cache m) :
    (∀ m, resolvedM env.importRun c2 m = resolvedM env.importRun cache m) ∧
    ∃ c4, get_monitoring_config env c3 = .ok (mon, c4) ∧
      (∀ m, resolvedM env.importRun c4 m = resolvedM env.importRun c3 m) := by
  unfold get_monitoring_config at h
  cases hm1 : check_module_availability env.importRun cache "prometheus_client" with
  | error e => simp [hm1] at h
  | ok p1 =>
  obtain ⟨b1, ca1⟩ := p1
  simp only [hm1] at h
  obtain ⟨hr1, hp1⟩ := check_module_availability_ok hm1
  simp only [Except.ok.injEq, Prod.mk.injEq] at h
  obtain ⟨hmon, hc2⟩ := h
  subst hmon
  subst hc2
  refine ⟨fun m => hp1 m, ?_⟩
  obtain ⟨d1, hd1, hq1⟩ := check_module_availability_of_resolved
    (show resolvedM env.importRun c3 "prometheus_client" = some b1 by rw [hres]; exact hr1)
  refine ⟨d1, ?_, fun m => hq1 m⟩
  unfold get_monitoring_config
  simp only [hd1]

/-- C7: configuration retrieval is idempotent over a fixed probe outcome —
a completed `get_dynamic_config` call, immediately rerun against the module
cache it left behind, returns exactly the same `RuntimeConfig`. -/
theorem get_dynamic_config_idempotent (env : Environment) (cache : ModuleCache)
    (cfg : RuntimeConfig) (c1 : ModuleCache)
    (h : get_dynamic_config env cache = .ok (cfg, c1)) :
    ∃ c2, get_dynamic_config env c1 = .ok (cfg, c2) := by
  unfold get_dynamic_config at h
  cases hde : detect_environment env cache with
  | error e => simp [hde] at h
  | ok pde =>
  obtain ⟨env_info, ca⟩ := pde
  simp only [hde] at h
  cases hmc : get_model_config env with
  | error e => simp [hmc] at h
  | ok models =>
  simp only [hmc] at h
  cases hll : get_llm_config env with
  | error e => simp [hll] at h
  | ok llm =>
  simp only [hll] at h
  cases hmo : get_monitoring_config env ca with
  | error e => simp [hmo] at h
  | ok pmo =>
  obtain ⟨mon, cb⟩ := pmo
  simp only [hmo] at h
  simp only [Except.ok.injEq, Prod.mk.injEq] at h
  obtain ⟨hcfg, hc1⟩ := h
  subst hcfg
  subst hc1
  obtain ⟨hpr_de, -⟩ := detect_environment_stable env cache cache env_info ca hde
    (fun m => rfl)
  obtain ⟨hpr_mo, -⟩ := get_monitoring_config_stable env ca ca mon cb hmo (fun m => rfl)
  have hcb : ∀ m, resolvedM env.importRun cb m = resolvedM env.importRun cache m :=
    fun m => (hpr_mo m).trans (hpr_de m)
  obtain ⟨-, c4, hde2, hq⟩ := detect_environment_stable env cache cb env_info ca hde hcb
  have hc4 : ∀ m, resolvedM env.importRun c4 m = resolvedM env.importRun ca m :=
    fun m => (hq m).trans (hpr_mo m)
  obtain ⟨-, c5, hmo2, -⟩ := get_monitoring_config_stable env ca c4 mon cb hmo hc4
  refine ⟨c5, ?_⟩
  unfold get_dynamic_config
  simp only [hde2, hmc, hll, hmo2]

/-- C7 witness: in the all-absent environment, the first run completes with
`cfgAllAbsent`, and the rerun from the cache it left returns the same
configuration. -/
theorem get_dynamic_config_idempotent_witness :
    ∃ c2, get_dynamic_config envAllAbsent cacheAfterAllAbsentRun = .ok (cfgAllAbsent, c2) :=
  get_dynamic_config_idempotent envAllAbsent (fun _ => none) cfgAllAbsent
    cacheAfterAllAbsentRun rfl
